import Mathlib

/-!
Verification of the acme2certifier Account service and WSGI dispatcher.

The Python sources `acme/account.py` and `examples/acme2certifier_wsgi.py` are
shallowly embedded below.  Dictionaries whose keys are known are embedded as
structures with optional fields (a `none` field is an absent key); the database
handler, the envelope checker and the helper functions live outside the
embedded sources and are modelled from the specification, each marked by a doc
comment beginning with `Modelled from the spec:`.
-/

/-- A JSON Web Key as it appears inside a decoded protected header.  Only the
members the account code inspects are kept; every member is optional. -/
structure Jwk where
  kty : Option String := none
  n : Option String := none
  e : Option String := none
  crv : Option String := none
  x : Option String := none
  y : Option String := none
deriving DecidableEq

/-- The decoded protected header of a JWS envelope, restricted to the members
`Account.add` and `Account.onlyreturnexisting` read. -/
structure ProtectedHdr where
  alg : Option String := none
  jwk : Option Jwk := none
deriving DecidableEq

/-- The decoded payload of a newAccount / account request, restricted to the
keys the account code reads.  A `none` field stands for an absent key. -/
structure Payload where
  onlyreturnexisting : Option Bool := none
  termsofserviceagreed : Option Bool := none
  contact : Option (List String) := none
  status : Option String := none
deriving DecidableEq

/-- One row of the account store. -/
structure AccountRecord where
  name : String
  alg : String
  jwk : Jwk
  contact : List String
  status : String := "valid"
deriving DecidableEq

/-- The tuple returned by `Message.check`: http code, message, detail, the
decoded protected header, the decoded payload, and the account name resolved
from `kid` (none in skip-signature mode). -/
structure CheckResult where
  code : Nat
  message : Option String := none
  detail : Option String := none
  prot : ProtectedHdr := {}
  payload : Payload := {}
  account_name : Option String := none
deriving DecidableEq

/-- The JSON body of a response, as the account code builds it. -/
inductive Body where
  | empty : Body
  | newAccountBody (status : String) (contact : List String) (orders : String) : Body
  | payloadEcho (p : Payload) : Body
  | problem (errType : String) (detail : Option String) : Body
deriving DecidableEq

/-- An HTTP response: code, optional Location header, body. -/
structure Response where
  code : Nat
  location : Option String := none
  body : Body := Body.empty
deriving DecidableEq

def malformedUrn : String := "urn:ietf:params:acme:error:malformed"

def invalidContactUrn : String := "urn:ietf:params:acme:error:invalidContact"

def userActionRequiredUrn : String := "urn:ietf:params:acme:error:userActionRequired"

def accountDoesNotExistUrn : String := "urn:ietf:params:acme:error:accountDoesNotExist"

def unauthorizedUrn : String := "urn:ietf:params:acme:error:unauthorized"

/-- ASCII lower-casing of one character, mirroring Python `str.lower` on the
ASCII range (the only range the embedded strings use). -/
def char_lower (c : Char) : Char :=
  if 65 ≤ c.toNat ∧ c.toNat ≤ 90 then Char.ofNat (c.toNat + 32) else c

/-- String lower-casing over the character list (kernel-reducible stand-in for
`String.toLower`). -/
def str_lower (s : String) : String := ⟨s.data.map char_lower⟩

/-- Drop the first `n` characters (kernel-reducible stand-in for `String.drop`). -/
def str_drop (s : String) (n : Nat) : String := ⟨s.data.drop n⟩

/-- Prefix test over the character lists (kernel-reducible stand-in for
`String.isPrefixOf`). -/
def str_is_prefix (p s : String) : Bool := p.data.isPrefixOf s.data

/-- Split a character list at every occurrence of `c` (stand-in for Python
`str.split`). -/
def split_at_char (c : Char) : List Char → List (List Char)
  | [] => [[]]
  | a :: as =>
      let r := split_at_char c as
      if a == c then [] :: r
      else
        match r with
        | h :: t => (a :: h) :: t
        | [] => [[a]]

/-- Join strings with a comma-space separator, mirroring `', '.join(...)`. -/
def join_comma : List String → String
  | [] => ""
  | [s] => s
  | s :: rest => s ++ ", " ++ join_comma rest

/-- Modelled from the spec: `acme.helper.validate_email` is not under src/.
Per section 4.3 the contact check requires at least one contact URI matching a
`mailto:` RFC-5322 shape (local part and domain separated by one `@`). -/
def valid_email_shape (s : String) : Bool :=
  match split_at_char '@' s.data with
  | [l, d] => !l.isEmpty && !d.isEmpty
  | _ => false

/-- Modelled from the spec: `acme.helper.validate_email` is not under src/.
Per section 4.3: at least one contact URI, each a `mailto:` of RFC-5322 shape. -/
def validate_email (contacts : List String) : Bool :=
  !contacts.isEmpty && contacts.all (fun c =>
    str_is_prefix "mailto:" c && valid_email_shape (str_drop c 7))

/-- The RFC 3986 unreserved (URL-safe) alphabet: 66 characters. -/
def urlsafe_chars : List Char :=
  "ABCDEFGHIJKLMNOPQRSTUVWXYZabcdefghijklmnopqrstuvwxyz0123456789-._~".data

/-- Modelled from the spec: `acme.helper.generate_random_string` is not under
src/.  Per section 3 invariant 5 every persisted name is a random URL-safe
string; this is the number of possible names of the given length over the full
URL-safe alphabet (an upper bound for any URL-safe alphabet). -/
def generate_random_string_space (len : Nat) : Nat := urlsafe_chars.length ^ len

/-- The length `Account.add` passes to `generate_random_string` (source line
`generate_random_string(self.logger, 12)`). -/
def account_name_length : Nat := 12

/-- Modelled from the spec: `DBstore.account_add` is not under src/.  Per
section 5 account creation is keyed on the account key: inserting a record
whose JWK already belongs to a stored account returns the existing account's
name with `new = false`; otherwise the record is appended and `new = true`. -/
def dbstore_account_add (db : List AccountRecord) (rec : AccountRecord) :
    (String × Bool) × List AccountRecord :=
  match db.find? (fun r => r.jwk == rec.jwk) with
  | some r => ((r.name, false), db)
  | none => ((rec.name, true), db ++ [rec])

/-- Modelled from the spec: `DBstore.account_lookup` is not under src/.  Per
section 6 the store supports lookup of an account by a key field; the source
only ever calls it with the field `modulus`, the `n` member of the stored JWK. -/
def dbstore_account_lookup (db : List AccountRecord) (field value : String) :
    Option AccountRecord :=
  if field = "modulus" then db.find? (fun r => r.jwk.n == some value) else none

/-- Modelled from the spec: `DBstore.account_delete` is not under src/.  Per
section 3 accounts are "destroyed never (deactivation is a status transition)":
the record keeps existing and its status becomes `deactivated`.  The operation
succeeds iff a record with the given name exists. -/
def dbstore_account_delete (db : List AccountRecord) (aname : String) :
    Bool × List AccountRecord :=
  if db.any (fun r => r.name == aname) then
    (true, db.map (fun r => if r.name == aname then { r with status := "deactivated" } else r))
  else (false, db)

/-- Modelled from the spec: `Message.check` kid resolution is not under src/.
Per section 4.2 step 5: resolve `kid` to an account record; fail with
`accountDoesNotExist` if unknown; fail with 401 `unauthorized` if the account
is deactivated; otherwise verification proceeds. -/
def resolve_kid (db : List AccountRecord) (aname : String) : Nat × Option String :=
  match db.find? (fun r => r.name == aname) with
  | none => (400, some accountDoesNotExistUrn)
  | some r =>
      if r.status = "deactivated" then (401, some unauthorizedUrn) else (200, none)

/-- Modelled from the spec: `Message.prepare_response` is not under src/.  Per
sections 6 and 7 an error response (code at least 400) becomes a problem
document carrying the error type and detail, while a success response keeps
the data and headers the caller prepared. -/
def prepare_response (code : Nat) (msg detail : Option String)
    (loc : Option String) (body : Body) : Response :=
  if 400 ≤ code then { code := code, location := none, body := Body.problem (msg.getD "") detail }
  else { code := code, location := loc, body := body }

/-- `Account.add` from `acme/account.py`: the fresh random name produced by
`generate_random_string(logger, 12)` is passed in as `fresh`. -/
def Account.add (fresh : String) (content : ProtectedHdr) (contact : List String)
    (db : List AccountRecord) : (Nat × Option String × Option String) × List AccountRecord :=
  match content.alg, content.jwk, contact with
  | some alg_v, some jwk_v, c :: cs =>
      let r := dbstore_account_add db
        { name := fresh, alg := alg_v, jwk := jwk_v, contact := c :: cs }
      if r.1.2 then ((201, some fresh, none), r.2)
      else ((200, some r.1.1, none), r.2)
  | _, _, _ => ((400, some malformedUrn, some "incomplete protectedpayload"), db)

/-- `Account.contact_check` from `acme/account.py`. -/
def Account.contact_check (content : Payload) : Nat × Option String × Option String :=
  match content.contact with
  | some contacts =>
      if validate_email contacts then (200, none, none)
      else (400, some invalidContactUrn, some (join_comma contacts))
  | none => (400, some invalidContactUrn, some "no contacts specified")

/-- `Account.delete` from `acme/account.py`. -/
def Account.delete (aname : String) (db : List AccountRecord) :
    (Nat × Option String × Option String) × List AccountRecord :=
  let r := dbstore_account_delete db aname
  if r.1 then ((200, none, none), r.2)
  else ((400, some accountDoesNotExistUrn, some "deletion failed"), r.2)

/-- `Account.tos_check` from `acme/account.py`. -/
def Account.tos_check (content : Payload) : Nat × Option String × Option String :=
  match content.termsofserviceagreed with
  | some true => (200, none, none)
  | some false => (403, some userActionRequiredUrn, some "tosfalse")
  | none => (403, some userActionRequiredUrn, some "tosfalse")

/-- `Account.onlyreturnexisting` from `acme/account.py`.  Only invoked when the
key `onlyreturnexisting` is present in the payload. -/
def Account.onlyreturnexisting (prot : ProtectedHdr) (payload : Payload)
    (db : List AccountRecord) : Nat × Option String × Option String :=
  match payload.onlyreturnexisting with
  | some true =>
      match prot.jwk with
      | some j =>
          match j.n with
          | some nval =>
              match dbstore_account_lookup db "modulus" nval with
              | some r => (200, some r.name, none)
              | none => (400, some accountDoesNotExistUrn, none)
          | none => (400, some malformedUrn, some "n value missing")
      | none => (400, some malformedUrn, some "jwk structure missing")
  | _ => (400, some userActionRequiredUrn, some "onlyReturnExisting must be true")

/-- `Account.new` from `acme/account.py`.  `srv` is the server name, `fresh`
the random name `generate_random_string` would produce, `check` the result of
`Message.check` in skip-signature mode. -/
def Account.new (srv fresh : String) (check : CheckResult) (db : List AccountRecord) :
    Response × List AccountRecord :=
  let step :=
    if check.code = 200 then
      if check.payload.onlyreturnexisting.isSome then
        (Account.onlyreturnexisting check.prot check.payload db, db)
      else
        let t := Account.tos_check check.payload
        let c := if t.1 = 200 then Account.contact_check check.payload else t
        if c.1 = 200 then
          Account.add fresh check.prot (check.payload.contact.getD []) db
        else (c, db)
    else ((check.code, check.message, check.detail), db)
  let code := step.1.1
  let msg := step.1.2.1
  let det := step.1.2.2
  if code = 200 ∨ code = 201 then
    let loc := srv ++ "/acme/acct/" ++ msg.getD ""
    let body :=
      if code = 201 then
        Body.newAccountBody "valid" (check.payload.contact.getD [])
          (srv ++ "/acme/acct/" ++ msg.getD "" ++ "/orders")
      else Body.empty
    (prepare_response code msg det (some loc) body, step.2)
  else
    let det2 := if det = some "tosfalse" then some "Terms of service must be accepted" else det
    (prepare_response code msg det2 none Body.empty, step.2)

/-- `Account.parse` from `acme/account.py`. -/
def Account.parse (check : CheckResult) (db : List AccountRecord) :
    Response × List AccountRecord :=
  if check.code = 200 then
    match check.payload.status with
    | some st =>
        if str_lower st = "deactivated" then
          let r := Account.delete (check.account_name.getD "") db
          if r.1.1 = 200 then
            (prepare_response r.1.1 r.1.2.1 r.1.2.2 none (Body.payloadEcho check.payload), r.2)
          else
            (prepare_response r.1.1 r.1.2.1 r.1.2.2 none Body.empty, r.2)
        else
          (prepare_response 400 (some malformedUrn)
            (some "status attribute without sense") none Body.empty, db)
    | none =>
        (prepare_response 400 (some malformedUrn)
          (some "dont know what to do with this request") none Body.empty, db)
  else
    (prepare_response check.code check.message check.detail none Body.empty, db)

/-- `HTTP_CODE_DIC` from `examples/acme2certifier_wsgi.py`, as written there
(200 and 201 carry the phrases the source assigns them). -/
def HTTP_CODE_DIC (c : Nat) : Option String :=
  if c = 200 then some "Created"
  else if c = 201 then some "OK"
  else if c = 400 then some "Bad Request"
  else if c = 401 then some "Unauthorized"
  else if c = 403 then some "Forbidden"
  else if c = 404 then some "Not Found"
  else if c = 405 then some "Method Not Allowed"
  else if c = 500 then some "serverInternal "
  else none

/-- The status line every WSGI handler builds:
`'{0} {1}'.format(response_dic['code'], HTTP_CODE_DIC[response_dic['code']])`. -/
def status_line (code : Nat) : String :=
  toString code ++ " " ++ (HTTP_CODE_DIC code).getD ""

/-- The handler functions of `examples/acme2certifier_wsgi.py`. -/
inductive Handler where
  | directory | acct | authz | cert | chall | newaccount | newnonce | neworders
  | order | revokecert | trigger | not_found
deriving DecidableEq

/-- `re.search` of a `^`-anchored literal pattern: the pattern must be a
character-by-character prefix of the path. -/
def re_search_start : List Char → List Char → Bool
  | [], _ => true
  | _ :: _, [] => false
  | p :: ps, c :: cs => p == c && re_search_start ps cs

/-- The three shapes of regular expression appearing in `URLS`. -/
inductive Pat where
  | starts (s : String)
  | whole (s : String)
  | dir_opt
deriving DecidableEq

def Pat.matches : Pat → List Char → Bool
  | .starts s, p => re_search_start s.data p
  | .whole s, p => p == s.data
  | .dir_opt, p => p == "directory".data || p == "director".data

/-- The `URLS` table of `examples/acme2certifier_wsgi.py`, in source order.
`^pat` becomes `Pat.starts`, `^pat$` becomes `Pat.whole`, `^directory?$`
becomes `Pat.dir_opt`. -/
def URLS : List (Pat × Handler) := [
  (Pat.whole "", Handler.directory),
  (Pat.starts "acme/acct", Handler.acct),
  (Pat.starts "acme/authz", Handler.authz),
  (Pat.starts "acme/cert", Handler.cert),
  (Pat.starts "acme/chall", Handler.chall),
  (Pat.starts "acme/key-change", Handler.acct),
  (Pat.whole "acme/newaccount", Handler.newaccount),
  (Pat.whole "acme/newnonce", Handler.newnonce),
  (Pat.whole "acme/neworders", Handler.neworders),
  (Pat.starts "acme/order", Handler.order),
  (Pat.starts "acme/revokecert", Handler.revokecert),
  (Pat.dir_opt, Handler.directory),
  (Pat.starts "trigger", Handler.trigger)]

/-- `application` from `examples/acme2certifier_wsgi.py`: the first matching
entry of `URLS` wins, `not_found` otherwise. -/
def route (path : List Char) : Handler :=
  match URLS.find? (fun pr => pr.1.matches path) with
  | some pr => pr.2
  | none => Handler.not_found

/-- What a handler does with the request method before touching the body. -/
inductive HandlerAction where
  | account_parse_invoked
  | account_new_invoked
  | other_invoked
  | method_not_allowed
deriving DecidableEq

/-- The method dispatch of each handler in `examples/acme2certifier_wsgi.py`:
`acct` reads the body and calls `Account.parse` with no method test at all;
`newaccount`, `neworders`, `order`, `revokecert` and `trigger` answer 405
unless the method is POST; `authz`, `cert`, `chall` accept POST and GET;
`newnonce` accepts HEAD and GET. -/
def handler_action : Handler → String → HandlerAction
  | Handler.acct, _ => HandlerAction.account_parse_invoked
  | Handler.newaccount, m =>
      if m = "POST" then HandlerAction.account_new_invoked
      else HandlerAction.method_not_allowed
  | Handler.neworders, m =>
      if m = "POST" then HandlerAction.other_invoked else HandlerAction.method_not_allowed
  | Handler.order, m =>
      if m = "POST" then HandlerAction.other_invoked else HandlerAction.method_not_allowed
  | Handler.revokecert, m =>
      if m = "POST" then HandlerAction.other_invoked else HandlerAction.method_not_allowed
  | Handler.trigger, m =>
      if m = "POST" then HandlerAction.other_invoked else HandlerAction.method_not_allowed
  | Handler.authz, m =>
      if m = "POST" ∨ m = "GET" then HandlerAction.other_invoked
      else HandlerAction.method_not_allowed
  | Handler.cert, m =>
      if m = "POST" ∨ m = "GET" then HandlerAction.other_invoked
      else HandlerAction.method_not_allowed
  | Handler.chall, m =>
      if m = "POST" ∨ m = "GET" then HandlerAction.other_invoked
      else HandlerAction.method_not_allowed
  | Handler.newnonce, m =>
      if m = "HEAD" ∨ m = "GET" then HandlerAction.other_invoked
      else HandlerAction.method_not_allowed
  | Handler.directory, _ => HandlerAction.other_invoked
  | Handler.not_found, _ => HandlerAction.other_invoked

/-- Concrete requests and stores used by the witness and counterexample
theorems below. -/
def c10check : CheckResult :=
  { code := 200, payload := { onlyreturnexisting := some false } }

def c5check : CheckResult :=
  { code := 200, payload := { contact := some ["mailto:a@example.org"] } }

def c2wjwk : Jwk := { kty := some "RSA", n := some "mod1", e := some "AQAB" }

def c2wcheck : CheckResult :=
  { code := 200,
    prot := { alg := some "RS256", jwk := some c2wjwk },
    payload := { onlyreturnexisting := some true } }

def c2wdb : List AccountRecord :=
  [{ name := "exists1", alg := "RS256", jwk := c2wjwk,
     contact := ["mailto:a@example.org"] }]

def c2cejwk : Jwk :=
  { kty := some "EC", crv := some "P-256", x := some "xval", y := some "yval" }

def c2cecheck : CheckResult :=
  { code := 200,
    prot := { alg := some "ES256", jwk := some c2cejwk },
    payload := { onlyreturnexisting := some true } }

def c2cedb : List AccountRecord :=
  [{ name := "eacct", alg := "ES256", jwk := c2cejwk,
     contact := ["mailto:e@example.org"] }]

def c7wcheck : CheckResult :=
  { code := 200, account_name := some "acc7",
    payload := { status := some "revoked" } }

def c7wdb : List AccountRecord :=
  [{ name := "acc7", alg := "RS256", jwk := {}, contact := [] }]

def c7cecheck : CheckResult :=
  { code := 200, account_name := some "acc1",
    payload := { status := some "Deactivated" } }

def c7cedb : List AccountRecord :=
  [{ name := "acc1", alg := "RS256", jwk := {}, contact := [] }]

def c6check : CheckResult :=
  { code := 200,
    payload := { termsofserviceagreed := some true,
                 contact := some ["nomail"] } }

def c3check : CheckResult :=
  { code := 200, account_name := some "acc3",
    payload := { status := some "deactivated" } }

def c3db : List AccountRecord :=
  [{ name := "acc3", alg := "RS256", jwk := { kty := some "RSA", n := some "m3" },
     contact := ["mailto:c@example.org"] }]

def c1jwk : Jwk := { kty := some "RSA", n := some "mod9", e := some "AQAB" }

def c1check : CheckResult :=
  { code := 200,
    prot := { alg := some "RS256", jwk := some c1jwk },
    payload := { termsofserviceagreed := some true,
                 contact := some ["mailto:a@example.org"] } }

theorem re_search_start_self_append (l t : List Char) :
    re_search_start l (l ++ t) = true := by
  induction l with
  | nil => rfl
  | cons a as ih => simp [re_search_start, ih]

theorem re_search_start_append_of_le (l₁ l₂ t : List Char)
    (h : l₁.length ≤ l₂.length) :
    re_search_start l₁ (l₂ ++ t) = re_search_start l₁ l₂ := by
  induction l₁ generalizing l₂ with
  | nil => rfl
  | cons p ps ih =>
      cases l₂ with
      | nil => exact absurd h (by simp)
      | cons c cs =>
          have h2 := ih cs (Nat.le_of_succ_le_succ h)
          simp only [List.cons_append, re_search_start, List.append_eq] at h2 ⊢
          rw [h2]

/-- Claim C4 counterexample: a name of length 12 over the full URL-safe
alphabet (66 characters) is drawn from fewer than 2 to the 96 values, so the
claimed entropy bound fails. -/
theorem account_name_space_not_96_bits :
    ¬ 2 ^ 96 ≤ generate_random_string_space account_name_length := by decide

/-- Claim C4 (amended): every account name created by the Account service is a
fresh random URL-safe string of length 12, whose space has at most 66 to the
12th values, which is below 2 to the 96 (about 72 bits of entropy). -/
theorem account_name_space_below_96_bits :
    generate_random_string_space account_name_length = 66 ^ 12 ∧
    generate_random_string_space account_name_length < 2 ^ 96 := by decide

/-- Claim C8: the WSGI status-line table.  The source pairs 200 with the
phrase Created and 201 with OK, i.e. exactly the inverted pairing the claim
rules out; every status line a handler emits for 200 or 201 uses it. -/
theorem http_code_dic_inverted :
    status_line 200 = "200 Created" ∧ status_line 201 = "201 OK" ∧
    HTTP_CODE_DIC 200 = some "Created" ∧ HTTP_CODE_DIC 201 = some "OK" := by decide

/-- Claim C10: a newAccount payload carrying `onlyReturnExisting` with a false
value gets 400 `userActionRequired` with detail `onlyReturnExisting must be
true`; the registration path is not reached and no account is created. -/
theorem newaccount_onlyreturnexisting_false (srv fresh : String)
    (check : CheckResult) (db : List AccountRecord)
    (hcode : check.code = 200)
    (hore : check.payload.onlyreturnexisting = some false) :
    (Account.new srv fresh check db).1.code = 400 ∧
    (Account.new srv fresh check db).1.body =
      Body.problem userActionRequiredUrn (some "onlyReturnExisting must be true") ∧
    (Account.new srv fresh check db).2 = db := by
  rcases check with ⟨code, msg, det, prot, payload, aname⟩
  rcases payload with ⟨ore, tos, contact, status⟩
  simp only at hcode hore
  subst hcode
  subst hore
  simp [Account.new, Account.onlyreturnexisting, prepare_response]

/-- Witness for claim C10 at a concrete request. -/
theorem newaccount_onlyreturnexisting_false_witness :
    (Account.new "http://s" "w10" c10check []).1.code = 400 ∧
    (Account.new "http://s" "w10" c10check []).1.body =
      Body.problem userActionRequiredUrn (some "onlyReturnExisting must be true") ∧
    (Account.new "http://s" "w10" c10check []).2 = [] :=
  newaccount_onlyreturnexisting_false "http://s" "w10" c10check [] rfl rfl

/-- Claim C5: without `onlyReturnExisting`, a payload lacking
`termsOfServiceAgreed` or carrying it false yields 403 `userActionRequired`
with detail `Terms of service must be accepted`, and no account is created. -/
theorem newaccount_tos_required (srv fresh : String)
    (check : CheckResult) (db : List AccountRecord)
    (hcode : check.code = 200)
    (hore : check.payload.onlyreturnexisting = none)
    (htos : check.payload.termsofserviceagreed = none ∨
      check.payload.termsofserviceagreed = some false) :
    (Account.new srv fresh check db).1.code = 403 ∧
    (Account.new srv fresh check db).1.body =
      Body.problem userActionRequiredUrn (some "Terms of service must be accepted") ∧
    (Account.new srv fresh check db).2 = db := by
  rcases check with ⟨code, msg, det, prot, payload, aname⟩
  rcases payload with ⟨ore, tos, contact, status⟩
  simp only at hcode hore htos
  subst hcode
  subst hore
  rcases htos with h | h <;> subst h <;>
    simp [Account.new, Account.tos_check, prepare_response]

/-- Witness for claim C5 at a concrete request with no ToS statement. -/
theorem newaccount_tos_required_witness :
    (Account.new "http://s" "w5" c5check []).1.code = 403 ∧
    (Account.new "http://s" "w5" c5check []).1.body =
      Body.problem userActionRequiredUrn (some "Terms of service must be accepted") ∧
    (Account.new "http://s" "w5" c5check []).2 = [] :=
  newaccount_tos_required "http://s" "w5" c5check [] rfl rfl (Or.inl rfl)

/-- Claim C2 (amended): with `onlyReturnExisting` true the account is looked
up by the RSA modulus member `n` of the JWK embedded in the protected header
(not by JWK thumbprint): a missing jwk or a jwk without `n` yields 400
`malformed`; otherwise a stored account with that modulus is returned with 200
and its name in the Location header, and `accountDoesNotExist` is returned
when none matches.  No account is created in any case. -/
theorem newaccount_onlyreturnexisting_modulus (srv fresh : String)
    (check : CheckResult) (db : List AccountRecord)
    (hcode : check.code = 200)
    (hore : check.payload.onlyreturnexisting = some true) :
    (Account.new srv fresh check db).2 = db ∧
    (check.prot.jwk = none →
      (Account.new srv fresh check db).1.code = 400 ∧
      (Account.new srv fresh check db).1.body =
        Body.problem malformedUrn (some "jwk structure missing")) ∧
    (∀ j, check.prot.jwk = some j →
      (j.n = none →
        (Account.new srv fresh check db).1.code = 400 ∧
        (Account.new srv fresh check db).1.body =
          Body.problem malformedUrn (some "n value missing")) ∧
      (∀ nv, j.n = some nv →
        match db.find? (fun r => r.jwk.n == some nv) with
        | some r =>
            (Account.new srv fresh check db).1.code = 200 ∧
            (Account.new srv fresh check db).1.location =
              some (srv ++ "/acme/acct/" ++ r.name)
        | none =>
            (Account.new srv fresh check db).1.code = 400 ∧
            (Account.new srv fresh check db).1.body =
              Body.problem accountDoesNotExistUrn none)) := by
  rcases check with ⟨code, msg, det, prot, payload, aname⟩
  rcases payload with ⟨ore, tos, contact, status⟩
  simp only at hcode hore
  subst hcode
  subst hore
  refine ⟨?_, ?_, ?_⟩
  · rcases prot with ⟨palg, pjwk⟩
    rcases pjwk with _ | j
    · simp [Account.new, Account.onlyreturnexisting, prepare_response]
    · rcases hn : j.n with _ | nv
      · simp [Account.new, Account.onlyreturnexisting, prepare_response, hn]
      · rcases hf : db.find? (fun r => r.jwk.n == some nv) with _ | r <;>
          simp [Account.new, Account.onlyreturnexisting, prepare_response,
            dbstore_account_lookup, hn, hf]
  · intro hj
    simp only at hj
    simp [Account.new, Account.onlyreturnexisting, prepare_response, hj]
  · intro j hj
    simp only at hj
    refine ⟨?_, ?_⟩
    · intro hn
      simp [Account.new, Account.onlyreturnexisting, prepare_response, hj, hn]
    · intro nv hn
      rcases hf : db.find? (fun r => r.jwk.n == some nv) with _ | r <;>
        simp [Account.new, Account.onlyreturnexisting, prepare_response,
          dbstore_account_lookup, hj, hn, hf]

/-- Witness for claim C2 at a concrete request whose modulus is stored. -/
theorem newaccount_onlyreturnexisting_modulus_witness :
    (Account.new "http://s" "w2" c2wcheck c2wdb).2 = c2wdb ∧
    (Account.new "http://s" "w2" c2wcheck c2wdb).1.code = 200 ∧
    (Account.new "http://s" "w2" c2wcheck c2wdb).1.location =
      some ("http://s" ++ "/acme/acct/" ++ "exists1") := by
  have h := newaccount_onlyreturnexisting_modulus "http://s" "w2" c2wcheck c2wdb
    rfl rfl
  have h2 := (h.2.2 c2wjwk rfl).2 "mod1" rfl
  exact ⟨h.1, h2.1, h2.2⟩

/-- Claim C2 counterexample: the store holds an account with exactly the
embedded key (hence a matching JWK thumbprint), yet the response is 400
`malformed` with detail `n value missing` — neither 200 with the existing
name nor `accountDoesNotExist` — because the code looks up by the RSA modulus
member `n`, which an EC key does not have. -/
theorem newaccount_onlyreturnexisting_not_thumbprint :
    c2cedb.any (fun r => r.jwk == c2cejwk) = true ∧
    (Account.new "http://s" "ce2" c2cecheck c2cedb).1.code = 400 ∧
    (Account.new "http://s" "ce2" c2cecheck c2cedb).1.body =
      Body.problem malformedUrn (some "n value missing") := by decide

/-- Claim C7 (amended): the only mutation `Account.parse` performs is
deactivation, triggered whenever the lower-cased status equals `deactivated`
(the comparison is case-insensitive); a payload whose status lower-cases to
anything else, or with no status field, gets 400 `malformed` and leaves the
store unchanged. -/
theorem account_parse_other_status_malformed (check : CheckResult)
    (db : List AccountRecord)
    (hcode : check.code = 200)
    (hbad : ∀ s, check.payload.status = some s → str_lower s ≠ "deactivated") :
    (Account.parse check db).1.code = 400 ∧
    (∃ d, (Account.parse check db).1.body = Body.problem malformedUrn (some d)) ∧
    (Account.parse check db).2 = db := by
  rcases check with ⟨code, msg, det, prot, payload, aname⟩
  rcases payload with ⟨ore, tos, contact, status⟩
  simp only at hcode hbad
  subst hcode
  rcases status with _ | s
  · refine ⟨?_, ⟨"dont know what to do with this request", ?_⟩, ?_⟩ <;>
      simp [Account.parse, prepare_response]
  · have hs := hbad s rfl
    refine ⟨?_, ⟨"status attribute without sense", ?_⟩, ?_⟩ <;>
      simp [Account.parse, prepare_response, hs]

/-- Witness for amended claim C7 at a concrete unrecognized status. -/
theorem account_parse_other_status_malformed_witness :
    (Account.parse c7wcheck c7wdb).1.code = 400 ∧
    (∃ d, (Account.parse c7wcheck c7wdb).1.body =
      Body.problem malformedUrn (some d)) ∧
    (Account.parse c7wcheck c7wdb).2 = c7wdb :=
  account_parse_other_status_malformed c7wcheck c7wdb rfl
    (fun s hs => by injection hs with h; subst h; decide)

/-- Claim C7 counterexample: the payload status `Deactivated` differs from
`deactivated`, so by the claim the response should be 400 `malformed`; the
code lower-cases the status first and deactivates the account with 200. -/
theorem account_parse_case_insensitive :
    c7cecheck.payload.status = some "Deactivated" ∧
    ("Deactivated" = "deactivated") = False ∧
    (Account.parse c7cecheck c7cedb).1.code = 200 := by
  refine ⟨rfl, ?_, by decide⟩
  simp only [eq_iff_iff, iff_false]
  decide

/-- Claim C6: the contact check runs only after the ToS check succeeds — when
the ToS check fails the response is the ToS error even if the contact is also
bad — and once ToS passed, a payload without `contact`, or whose contact list
fails email validation, gets 400 `invalidContact` and no account is created. -/
theorem newaccount_contact_check_after_tos (srv fresh : String)
    (check : CheckResult) (db : List AccountRecord)
    (hcode : check.code = 200)
    (hore : check.payload.onlyreturnexisting = none) :
    ((Account.tos_check check.payload).1 ≠ 200 →
      (Account.new srv fresh check db).1.code = 403 ∧
      (Account.new srv fresh check db).1.body =
        Body.problem userActionRequiredUrn
          (some "Terms of service must be accepted") ∧
      (Account.new srv fresh check db).2 = db) ∧
    ((Account.tos_check check.payload).1 = 200 →
      (check.payload.contact = none ∨
        (∃ cs, check.payload.contact = some cs ∧ validate_email cs = false)) →
      (Account.new srv fresh check db).1.code = 400 ∧
      (∃ d, (Account.new srv fresh check db).1.body =
        Body.problem invalidContactUrn (some d)) ∧
      (Account.new srv fresh check db).2 = db) := by
  rcases check with ⟨code, msg, det, prot, payload, aname⟩
  rcases payload with ⟨ore, tos, contact, status⟩
  simp only at hcode hore
  subst hcode
  subst hore
  constructor
  · intro htos
    rcases tos with _ | b
    · simp [Account.new, Account.tos_check, prepare_response]
    · rcases b with _ | _
      · simp [Account.new, Account.tos_check, prepare_response]
      · exact absurd rfl htos
  · intro htos hcon
    rcases tos with _ | b
    · simp [Account.tos_check] at htos
    · rcases b with _ | _
      · simp [Account.tos_check] at htos
      · rcases hcon with hnone | ⟨cs, hcs, hval⟩
        · subst hnone
          refine ⟨?_, ⟨"no contacts specified", ?_⟩, ?_⟩ <;>
            simp [Account.new, Account.tos_check, Account.contact_check,
              prepare_response]
        · subst hcs
          by_cases hjc : join_comma cs = "tosfalse"
          · refine ⟨?_, ⟨"Terms of service must be accepted", ?_⟩, ?_⟩ <;>
              simp [Account.new, Account.tos_check, Account.contact_check,
                prepare_response, hval, hjc]
          · refine ⟨?_, ⟨join_comma cs, ?_⟩, ?_⟩ <;>
              simp [Account.new, Account.tos_check, Account.contact_check,
                prepare_response, hval, hjc]

/-- Witness for claim C6 at a concrete request with an invalid contact. -/
theorem newaccount_contact_check_after_tos_witness :
    (Account.new "http://s" "w6" c6check []).1.code = 400 ∧
    (∃ d, (Account.new "http://s" "w6" c6check []).1.body =
      Body.problem invalidContactUrn (some d)) ∧
    (Account.new "http://s" "w6" c6check []).2 = [] :=
  (newaccount_contact_check_after_tos "http://s" "w6" c6check [] rfl rfl).2
    rfl (Or.inr ⟨["nomail"], rfl, by decide⟩)

theorem deactivate_find (db : List AccountRecord) (aname : String)
    (h : db.any (fun r => r.name == aname) = true) :
    ∃ rec,
      (db.map (fun r =>
        if r.name == aname then { r with status := "deactivated" } else r)).find?
          (fun x => x.name == aname) = some rec ∧
      rec.status = "deactivated" := by
  induction db with
  | nil => simp at h
  | cons r rs ih =>
      by_cases hr : r.name = aname
      · refine ⟨{ r with status := "deactivated" }, ?_, rfl⟩
        rw [List.map_cons, List.find?_cons_of_pos _ (by simp [hr])]
        simp [hr]
      · have h' : rs.any (fun x => x.name == aname) = true := by
          simp only [List.any_cons, Bool.or_eq_true, beq_iff_eq] at h
          rcases h with h | h
          · exact absurd h hr
          · exact h
        obtain ⟨rec, hfind, hst⟩ := ih h'
        refine ⟨rec, ?_, hst⟩
        rw [List.map_cons]
        have hfr : (if (r.name == aname) = true
            then { r with status := "deactivated" } else r) = r := by
          simp [hr]
        rw [hfr, List.find?_cons_of_neg _ (by simp [hr]), hfind]

/-- Claim C3: deactivation is a status transition, not a deletion.  After a
verified POST with payload status `deactivated` returns 200, the account
record still exists with status `deactivated`, and resolving the same kid
afterwards fails with 401 `unauthorized`. -/
theorem account_deactivation_status_transition (check : CheckResult)
    (db : List AccountRecord) (aname : String)
    (hcode : check.code = 200)
    (hname : check.account_name = some aname)
    (hstatus : check.payload.status = some "deactivated")
    (hmem : db.any (fun r => r.name == aname) = true) :
    (Account.parse check db).1.code = 200 ∧
    (∃ rec,
      (Account.parse check db).2.find? (fun x => x.name == aname) = some rec ∧
      rec.status = "deactivated") ∧
    resolve_kid (Account.parse check db).2 aname = (401, some unauthorizedUrn) := by
  rcases check with ⟨code, msg, det, prot, payload, cname⟩
  rcases payload with ⟨ore, tos, contact, status⟩
  simp only at hcode hname hstatus
  subst hcode
  subst hname
  subst hstatus
  obtain ⟨rec, hfind, hst⟩ := deactivate_find db aname hmem
  have hparse :
      (Account.parse
        { code := 200, message := msg, detail := det, prot := prot,
          payload := { onlyreturnexisting := ore, termsofserviceagreed := tos,
                       contact := contact, status := some "deactivated" },
          account_name := some aname } db) =
      ({ code := 200, location := none,
         body := Body.payloadEcho
           { onlyreturnexisting := ore, termsofserviceagreed := tos,
             contact := contact, status := some "deactivated" } },
       db.map (fun r =>
         if r.name == aname then { r with status := "deactivated" } else r)) := by
    have hlow : str_lower "deactivated" = "deactivated" := by decide
    simp [Account.parse, Account.delete, dbstore_account_delete, hmem,
      prepare_response, hlow]
  rw [hparse]
  refine ⟨rfl, ⟨rec, hfind, hst⟩, ?_⟩
  simp only [resolve_kid]
  rw [hfind]
  simp [hst]

/-- Witness for claim C3 at a concrete deactivation request. -/
theorem account_deactivation_status_transition_witness :
    (Account.parse c3check c3db).1.code = 200 ∧
    (∃ rec,
      (Account.parse c3check c3db).2.find? (fun x => x.name == "acc3") = some rec ∧
      rec.status = "deactivated") ∧
    resolve_kid (Account.parse c3check c3db).2 "acc3" = (401, some unauthorizedUrn) :=
  account_deactivation_status_transition c3check c3db "acc3" rfl rfl rfl (by decide)

/-- Claim C1: a newAccount request that passes envelope verification (alg and
jwk present, code 200), the ToS check and the contact check either creates the
account — 201, Location pointing at the fresh name, body with status valid —
or, when the key is already registered, returns 200 with the Location pointing
at the existing account's name. -/
theorem newaccount_create_or_return (srv fresh : String) (check : CheckResult)
    (db : List AccountRecord) (alg_v : String) (j : Jwk) (cs : List String)
    (hcode : check.code = 200)
    (halg : check.prot.alg = some alg_v)
    (hjwk : check.prot.jwk = some j)
    (hore : check.payload.onlyreturnexisting = none)
    (htos : (Account.tos_check check.payload).1 = 200)
    (hcontact : check.payload.contact = some cs)
    (hval : validate_email cs = true) :
    match db.find? (fun r => r.jwk == j) with
    | none =>
        (Account.new srv fresh check db).1.code = 201 ∧
        (Account.new srv fresh check db).1.location =
          some (srv ++ "/acme/acct/" ++ fresh) ∧
        (Account.new srv fresh check db).1.body =
          Body.newAccountBody "valid" cs
            (srv ++ "/acme/acct/" ++ fresh ++ "/orders")
    | some r =>
        (Account.new srv fresh check db).1.code = 200 ∧
        (Account.new srv fresh check db).1.location =
          some (srv ++ "/acme/acct/" ++ r.name) := by
  rcases check with ⟨code, msg, det, prot, payload, aname⟩
  rcases prot with ⟨palg, pjwk⟩
  rcases payload with ⟨ore, tos, contact, status⟩
  simp only at hcode halg hjwk hore htos hcontact
  subst hcode
  subst halg
  subst hjwk
  subst hore
  subst hcontact
  rcases tos with _ | b
  · simp [Account.tos_check] at htos
  · rcases b with _ | _
    · simp [Account.tos_check] at htos
    · rcases cs with _ | ⟨c0, cs0⟩
      · simp [validate_email] at hval
      · rcases hf : db.find? (fun r => r.jwk == j) with _ | r <;>
          simp [Account.new, Account.tos_check, Account.contact_check,
            Account.add, dbstore_account_add, prepare_response, hval, hf]

/-- Witness for claim C1: creation against an empty store. -/
theorem newaccount_create_or_return_witness :
    (Account.new "http://s" "fresh1" c1check []).1.code = 201 ∧
    (Account.new "http://s" "fresh1" c1check []).1.location =
      some ("http://s" ++ "/acme/acct/" ++ "fresh1") ∧
    (Account.new "http://s" "fresh1" c1check []).1.body =
      Body.newAccountBody "valid" ["mailto:a@example.org"]
        ("http://s" ++ "/acme/acct/" ++ "fresh1" ++ "/orders") :=
  newaccount_create_or_return "http://s" "fresh1" c1check [] "RS256" c1jwk
    ["mailto:a@example.org"] rfl rfl rfl rfl rfl rfl (by decide)

theorem re_search_start_lit_false (l₁ l₂ t : List Char)
    (hlen : l₁.length ≤ l₂.length) (hf : re_search_start l₁ l₂ = false) :
    re_search_start l₁ (l₂ ++ t) = false := by
  rw [re_search_start_append_of_le l₁ l₂ t hlen]
  exact hf

/-- Claim C9: every path matching `^acme/acct` — and `^acme/key-change`,
which routes to the same handler — reaches the `acct` handler, which invokes
`Account.parse` on the body for every HTTP method with no 405 guard, unlike
the `newaccount`, `neworders`, `order`, `revokecert` and `trigger` handlers,
which answer 405 for any non-POST method. -/
theorem wsgi_acct_no_method_guard (method : String) (path rest : List Char)
    (hpath : path = "acme/acct".data ++ rest ∨
      path = "acme/key-change".data ++ rest) :
    route path = Handler.acct ∧
    handler_action Handler.acct method = HandlerAction.account_parse_invoked ∧
    (method ≠ "POST" →
      handler_action Handler.newaccount method = HandlerAction.method_not_allowed ∧
      handler_action Handler.neworders method = HandlerAction.method_not_allowed ∧
      handler_action Handler.order method = HandlerAction.method_not_allowed ∧
      handler_action Handler.revokecert method = HandlerAction.method_not_allowed ∧
      handler_action Handler.trigger method = HandlerAction.method_not_allowed) := by
  refine ⟨?_, rfl, ?_⟩
  · rcases hpath with rfl | rfl
    · have h2 : re_search_start "acme/acct".data
          ("acme/acct".data ++ rest) = true :=
        re_search_start_self_append _ _
      simp at h2
      simp [route, URLS, List.find?, Pat.matches, h2]
    · have e2 : re_search_start "acme/acct".data
          ("acme/key-change".data ++ rest) = false :=
        re_search_start_lit_false _ _ _ (by decide) (by decide)
      have e3 : re_search_start "acme/authz".data
          ("acme/key-change".data ++ rest) = false :=
        re_search_start_lit_false _ _ _ (by decide) (by decide)
      have e4 : re_search_start "acme/cert".data
          ("acme/key-change".data ++ rest) = false :=
        re_search_start_lit_false _ _ _ (by decide) (by decide)
      have e5 : re_search_start "acme/chall".data
          ("acme/key-change".data ++ rest) = false :=
        re_search_start_lit_false _ _ _ (by decide) (by decide)
      have e6 : re_search_start "acme/key-change".data
          ("acme/key-change".data ++ rest) = true :=
        re_search_start_self_append _ _
      simp at e2 e3 e4 e5 e6
      simp [route, URLS, List.find?, Pat.matches, e2, e3, e4, e5, e6]
  · intro hm
    simp [handler_action, hm]

/-- Witness for claim C9 at a concrete GET request on an account URL. -/
theorem wsgi_acct_no_method_guard_witness :
    route ("acme/acct".data ++ "/n1".data) = Handler.acct ∧
    handler_action Handler.acct "GET" = HandlerAction.account_parse_invoked ∧
    ("GET" ≠ "POST" →
      handler_action Handler.newaccount "GET" = HandlerAction.method_not_allowed ∧
      handler_action Handler.neworders "GET" = HandlerAction.method_not_allowed ∧
      handler_action Handler.order "GET" = HandlerAction.method_not_allowed ∧
      handler_action Handler.revokecert "GET" = HandlerAction.method_not_allowed ∧
      handler_action Handler.trigger "GET" = HandlerAction.method_not_allowed) :=
  wsgi_acct_no_method_guard "GET" ("acme/acct".data ++ "/n1".data) "/n1".data
    (Or.inl rfl)
